import Mathlib

/-!
Shallow embedding of the core analytic logic of the Nifty 50 dashboard
(`src/app.py`): metric derivation, cash-flow red flags, portfolio
construction and allocation, screener aggregation, and the watchlist.
Python floats are modelled by exact rationals; pandas NaN / Python None
cells are modelled by `Option ℚ` with `none` for a missing value.
-/

namespace Nifty

/-- One row of the screener master table (`df` in `app.py`, built from the
columns Company, Sector, Price, P/E, ROE, 1Y Return %, 3Y CAGR %,
Volatility %). -/
structure Row where
  company : String
  sector : String
  price : Option ℚ
  pe : Option ℚ
  roe : Option ℚ
  r1y : Option ℚ
  cagr3 : Option ℚ
  vol : Option ℚ
deriving DecidableEq

/-- Descending comparison on nullable keys: pandas `sort_values(...,
ascending=False)` places NaN keys last (`na_position` defaults to
`"last"`). -/
def optGeB : Option ℚ → Option ℚ → Bool
  | some a, some b => decide (b ≤ a)
  | some _, none => true
  | none, some _ => false
  | none, none => true

/-- Embedding of `sort_values(column, ascending=False)` on the screener table. -/
def sortDescBy (key : Row → Option ℚ) (l : List Row) : List Row :=
  l.insertionSort (fun a b => optGeB (key a) (key b) = true)

/-- Embedding of `pandas.Series.median` on non-null values: mean of the two middle
elements when the count is even, the middle element when odd. -/
def median (xs : List ℚ) : ℚ :=
  let s := xs.insertionSort (· ≤ ·)
  let n := s.length
  if n = 0 then 0
  else if n % 2 = 1 then s.getD (n / 2) 0
  else (s.getD (n / 2 - 1) 0 + s.getD (n / 2) 0) / 2

/-- The boolean mask `d["Volatility %"] < m`: a NaN volatility compares
false. -/
def volBelow (m : ℚ) (r : Row) : Bool :=
  match r.vol with
  | some v => decide (v < m)
  | none => false

/-- Embedding of `data.dropna(subset=["Price (₹)", "ROE", "Volatility %", "P/E"])`
(app.py line 197): the eligibility filter of `build_portfolio`. -/
def eligible (tbl : List Row) : List Row :=
  tbl.filter (fun r => r.price.isSome && r.roe.isSome && r.vol.isSome && r.pe.isSome)

inductive Risk
  | low
  | moderate
  | high
deriving DecidableEq

/-- Embedding of `build_portfolio(data, risk)` (app.py lines 196-204). -/
def build_portfolio (tbl : List Row) (risk : Risk) : List Row :=
  let d := eligible tbl
  match risk with
  | .low => (d.filter (volBelow (median (d.filterMap Row.vol)))).take 5
  | .moderate => (sortDescBy Row.roe d).take 5
  | .high => (sortDescBy Row.cagr3 d).take 5

structure Entry where
  company : String
  price : ℚ
  shares : ℤ
  invested : ℚ
deriving DecidableEq

structure PortfolioResult where
  entries : List Entry
  totalInvested : ℚ
  cashLeft : ℚ
deriving DecidableEq

/-- The only failure the allocation code can raise: Python
`ZeroDivisionError`, from `capital / len(pf)` when `pf` is empty or from
`allocation / x` when a retained price is zero. -/
inductive PyError
  | zeroDivisionError
deriving DecidableEq

/-- One retained row's sizing (app.py lines 211-214):
`shares = floor(allocation / price)`, `invested = shares * price`. -/
def mkEntry (alloc : ℚ) (r : Row) : Entry :=
  { company := r.company, price := r.price.getD 0,
    shares := Int.floor (alloc / r.price.getD 0),
    invested := (Int.floor (alloc / r.price.getD 0) : ℚ) * r.price.getD 0 }

/-- The "Generate Portfolio" handler (app.py lines 206-217): runs
`build_portfolio`, then `allocation = capital / len(pf)`,
`shares = floor(allocation / price)` per row,
`invested = shares * price`, `total_invested`, `cash_left`.
A division by zero (empty `pf`, or a zero price in `pf`) is the error
branch; Python raises before producing any result. -/
def generate (df : List Row) (risk : Risk) (capital : ℚ) :
    Except PyError PortfolioResult :=
  let pf := build_portfolio df risk
  if pf.length = 0 then .error .zeroDivisionError
  else if pf.any (fun r => r.price.getD 0 == 0) then .error .zeroDivisionError
  else
    let alloc := capital / (pf.length : ℚ)
    let entries := pf.map (mkEntry alloc)
    let total := (entries.map Entry.invested).sum
    .ok { entries := entries, totalInvested := total, cashLeft := capital - total }

/-! ### Metrics engine (`get_metrics`, app.py lines 52-73) -/

/-- Embedding of `(hist["Close"].iloc[-1] / hist["Close"].iloc[-252] - 1) * 100`, guarded
by `len(hist) > 252` (app.py lines 64-66).  `iloc[-1]` is the element at
index `length - 1` and `iloc[-252]` the element at index `length - 252`. -/
def oneYearReturn (closes : List ℚ) : Option ℚ :=
  if closes.length > 252 then
    some ((closes.getD (closes.length - 1) 0 / closes.getD (closes.length - 252) 0 - 1) * 100)
  else none

/-- Day-over-day percentage changes (`Series.pct_change`, dropping the
leading NaN). -/
def pctChanges : List ℚ → List ℚ
  | a :: b :: t => (b / a - 1) :: pctChanges (b :: t)
  | _ => []

/-- Sample mean. -/
def meanQ (xs : List ℚ) : ℚ := xs.sum / (xs.length : ℚ)

/-- Sample variance with `ddof = 1` (pandas `Series.std` squared). -/
def sampleVar (xs : List ℚ) : ℚ :=
  ((xs.map (fun x => (x - meanQ xs) ^ 2)).sum) / ((xs.length : ℚ) - 1)

/-- The raw data `get_metrics` reads for one symbol: the `info` fields it
uses and the close-price history.  A `none` wrapper stands for the
exception path of the enclosing `try`. -/
structure RawData where
  price : Option ℚ
  pe : Option ℚ
  roe : Option ℚ
  closes : List ℚ
deriving DecidableEq

/-- The 6-tuple returned by `get_metrics`. -/
structure Metrics where
  price : Option ℚ
  pe : Option ℚ
  roe : Option ℚ
  r1y : Option ℚ
  cagr3 : Option ℚ
  vol : Option ℚ
deriving DecidableEq

/-- Embedding of `get_metrics` (app.py lines 52-73), parametric in the two irrational
numeric kernels the claims never evaluate: `cb` for `x ** (1/3)` and `sq`
for `x ** 0.5` (square root, used both for `std` and for `252 ** 0.5`).
Any exception gives six `None`s; a pandas NaN result (volatility needs at
least two percentage changes, i.e. three closes, for `std` with
`ddof=1`) is modelled as `none` as well. -/
def get_metrics (sq cb : ℚ → ℚ) : Option RawData → Metrics
  | none => ⟨none, none, none, none, none, none⟩
  | some d =>
    { price := d.price
      pe := d.pe
      roe := d.roe
      r1y := oneYearReturn d.closes
      cagr3 :=
        if d.closes.length > 756 then
          some ((cb (d.closes.getD (d.closes.length - 1) 0 / d.closes.getD 0 0) - 1) * 100)
        else none
      vol :=
        if 3 ≤ d.closes.length then
          some (sq (sampleVar (pctChanges d.closes)) * sq 252 * 100)
        else none }

/-- One instrument of the universe CSV: Symbol, Company, Sector. -/
structure Equity where
  symbol : String
  company : String
  sector : String
deriving DecidableEq

/-- One iteration of the master-table loop (app.py lines 115-126): the
universe row's Company and Sector plus the metrics 6-tuple. -/
def mkRow (e : Equity) (m : Metrics) : Row :=
  { company := e.company, sector := e.sector, price := m.price, pe := m.pe,
    roe := m.roe, r1y := m.r1y, cagr3 := m.cagr3, vol := m.vol }

/-- The master-table build loop (app.py lines 114-128): one row per
universe instrument, in universe order; `fetch` is the per-symbol data
source (`none` = that instrument's fetch failed). -/
def buildTable (sq cb : ℚ → ℚ) (fetch : Equity → Option RawData)
    (univ : List Equity) : List Row :=
  univ.map (fun e => mkRow e (get_metrics sq cb (fetch e)))

/-! ### Cash-flow auditor (`get_cashflow_flags`, app.py lines 78-109) -/

/-- A financial statement as keyed rows; the ℚ value models
`.loc[name].iloc[0]`, the row's most recent figure. -/
abbrev Stmt : Type := List (String × ℚ)

/-- Embedding of `stmt.loc[name].iloc[0]`, with a missing key giving `none` instead of
a raised `KeyError` (the caller catches it). -/
def rowLookup (s : Stmt) (name : String) : Option ℚ :=
  (List.find? (fun p => p.1 == name) s).map (fun p => p.2)

/-- The red-flag rules of `get_cashflow_flags` once CFO and net profit are
resolved (app.py lines 91-107). -/
def cashflowFlags (cfo ni : ℚ) : List String :=
  let flags : List String := []
  let flags := if cfo < ni then flags ++ ["Operating cash flow is lower than net profit"] else flags
  let flags := if ni ≠ 0 ∧ cfo / ni < 4/5 then
    flags ++ ["Weak cash conversion (CFO / Net Profit < 0.8)"] else flags
  let flags := if 0 < ni ∧ cfo < 0 then
    flags ++ ["Negative operating cash flow despite positive profit"] else flags
  if flags = [] then ["Cash flows broadly support reported profits"] else flags

/-- Embedding of `get_cashflow_flags` (app.py lines 78-109): a `None` statement, or a
`KeyError` from either `.loc` lookup (caught by the enclosing `except`),
collapses to the single generic flag. -/
def get_cashflow_flags (cashflow income : Option Stmt) : List String :=
  match cashflow, income with
  | some cf, some inc =>
    match rowLookup cf "Total Cash From Operating Activities",
          rowLookup inc "Net Income" with
    | some cfo, some ni => cashflowFlags cfo ni
    | _, _ => ["Cash-flow data unavailable"]
  | _, _ => ["Cash-flow data unavailable"]

/-! ### News sentiment classifier -/

inductive SentimentLabel
  | positive
  | caution
  | neutral
deriving DecidableEq

/-- Substring test on character lists. -/
def isSubstr : List Char → List Char → Bool
  | needle, [] => needle.isEmpty
  | needle, c :: t => needle.isPrefixOf (c :: t) || isSubstr needle t

/-- Modelled from the spec: the NewsClassifier component (spec §4.3) is
absent from `src/app.py`; its positive keyword set, as specified. -/
def positiveKWs : List String :=
  ["profit", "growth", "order", "approval", "record", "expansion"]

/-- Modelled from the spec: the NewsClassifier component (spec §4.3) is
absent from `src/app.py`; its negative keyword set, as specified. -/
def negativeKWs : List String :=
  ["loss", "penalty", "fraud", "probe", "downgrade", "decline"]

/-- Lower-cased character list of a headline (the keywords are ASCII, so
per-character lowering models `headline.lower()`). -/
def lowerChars (h : String) : List Char :=
  h.data.map Char.toLower

/-- Modelled from the spec: `NewsClassifier.classify` (spec §4.3) is absent
from `src/app.py`.  Case-insensitive substring match, positive set
evaluated first (the tie-break), then negative, else neutral. -/
def classify (h : String) : SentimentLabel :=
  if positiveKWs.any (fun kw => isSubstr kw.data (lowerChars h)) then .positive
  else if negativeKWs.any (fun kw => isSubstr kw.data (lowerChars h)) then .caution
  else .neutral

/-! ### Watchlist -/

/-- The "Add to Watchlist" handler (app.py lines 151-153):
`if stock not in watchlist: watchlist.append(stock)`. -/
def addWatchlist (w : List String) (s : String) : List String :=
  if s ∈ w then w else w ++ [s]

/-! ### Concrete tables used by the closed theorems -/

/-- Screener row with the given price, ROE, volatility and P/E; the two
return columns null. -/
def mkR (c : String) (p roe vol pe : Option ℚ) : Row :=
  { company := c, sector := "S", price := p, pe := pe, roe := roe,
    r1y := none, cagr3 := none, vol := vol }

/-- A table whose only row has a null P/E: the eligibility filter drops
it, so the eligible set is empty. -/
def exC2 : List Row := [mkR "A" (some 100) (some 1) (some 1) none]

/-- A 253-observation close series: 1, then 2, then 250 fives, then 10. -/
def csC3 : List ℚ := 1 :: 2 :: (List.replicate 250 5 ++ [10])

/-! ### Helper lemmas -/

lemma mem_eligible_fields {tbl : List Row} {r : Row} (h : r ∈ eligible tbl) :
    r ∈ tbl ∧ r.price.isSome = true ∧ r.roe.isSome = true ∧
      r.vol.isSome = true ∧ r.pe.isSome = true := by
  have hm := List.mem_filter.1 h
  have hb := hm.2
  simp only [Bool.and_eq_true] at hb
  exact ⟨hm.1, hb.1.1.1, hb.1.1.2, hb.1.2, hb.2⟩

lemma mem_of_mem_build_portfolio {tbl : List Row} {risk : Risk} {r : Row}
    (h : r ∈ build_portfolio tbl risk) : r ∈ eligible tbl := by
  cases risk with
  | low =>
    exact (List.filter_sublist _).subset ((List.take_sublist 5 _).subset h)
  | moderate =>
    exact (List.perm_insertionSort _ _).subset ((List.take_sublist 5 _).subset h)
  | high =>
    exact (List.perm_insertionSort _ _).subset ((List.take_sublist 5 _).subset h)

/-! ### Theorems -/

/-- C2: on an eligible set that is empty after the null-filter, the
"Generate Portfolio" code path fails — but with a Python
`ZeroDivisionError` from `allocation = capital / len(pf)` (app.py line
208), not with a declared `InsufficientDataError`; no partial result is
produced. -/
theorem C2_empty_eligible_crashes :
    generate exC2 .low 100000 = .error .zeroDivisionError := rfl

set_option maxRecDepth 8000 in
/-- C3 counterexample: for the 253-observation series `csC3`,
`get_metrics` computes `(close[last] / close[last-251] - 1) * 100 = 400`
(it reads `iloc[-252]`, the observation 251 positions before the last),
while the claimed formula `(close[last] / close[last-252] - 1) * 100`
(252 positions before the last) evaluates to 900. -/
theorem C3_counterexample :
    oneYearReturn csC3 = some 400 ∧
    (csC3.getD (csC3.length - 1) 0 / csC3.getD (csC3.length - 1 - 252) 0 - 1) * 100 = 900 ∧
    (400 : ℚ) ≠ 900 := by
  have hlen : csC3.length = 253 := by decide
  have h252 : csC3.getD 252 0 = 10 := by decide
  have h1 : csC3.getD 1 0 = 2 := by decide
  have h0 : csC3.getD 0 0 = 1 := by decide
  refine ⟨?_, ?_, by norm_num⟩
  · rw [oneYearReturn, hlen, if_pos (by norm_num : (253 : ℕ) > 252)]
    show some ((csC3.getD 252 0 / csC3.getD 1 0 - 1) * 100) = some 400
    rw [h252, h1]
    norm_num
  · rw [hlen]
    show (csC3.getD 252 0 / csC3.getD 0 0 - 1) * 100 = 900
    rw [h252, h0]
    norm_num

/-- C4 counterexample: with CFO = 80 and net income = 100 the cash
conversion ratio is exactly 0.8, the strict comparison `< 0.8` fails, and
the auditor emits only the lower-than-net-profit flag — the claimed
"weak cash conversion" flag is absent. -/
theorem C4_counterexample :
    cashflowFlags 80 100 = ["Operating cash flow is lower than net profit"] ∧
    "Weak cash conversion (CFO / Net Profit < 0.8)" ∉ cashflowFlags 80 100 := by
  have hc1 : (80 : ℚ) < 100 := by norm_num
  have hc2 : ¬((80 : ℚ) / 100 < 4/5) := by norm_num
  have hc3 : ¬((80 : ℚ) < 0) := by norm_num
  have h : cashflowFlags 80 100 = ["Operating cash flow is lower than net profit"] := by
    simp [cashflowFlags, hc1, hc2, hc3]
  exact ⟨h, by rw [h]; decide⟩

/-- C5 counterexample: the auditor has no alias list — a cash-flow
statement that reports operating cash flow under a different row name
(here the modern yfinance name `"Operating Cash Flow"`) makes the single
`.loc` lookup fail, and the result is the generic
`"Cash-flow data unavailable"` flag, not the claimed
`"operating cash-flow not reported"`; a missing net income row likewise
yields the generic flag, not `"net income unavailable"`. -/
theorem C5_counterexample :
    get_cashflow_flags (some [("Operating Cash Flow", 50)]) (some [("Net Income", 100)]) =
      ["Cash-flow data unavailable"] ∧
    get_cashflow_flags (some [("Total Cash From Operating Activities", 50)]) (some []) =
      ["Cash-flow data unavailable"] ∧
    get_cashflow_flags (some [("Operating Cash Flow", 50)]) (some [("Net Income", 100)]) ≠
      ["operating cash-flow not reported"] := by
  refine ⟨rfl, rfl, ?_⟩
  intro h
  exact absurd (rfl.trans h) (by decide)

/-- C4: once CFO and net income are both resolved, the auditor's list is
non-empty, is either exactly the single supportive flag or an ordered
sublist of the three concern flags, and each concern flag appears exactly
under its rule's condition; CFO=-10, NI=50 yields all three flags.  (The
claimed CFO=80, NI=100 instance is corrected by `C4_counterexample`: the
ratio is exactly 0.8, so only the first flag is emitted.) -/
theorem C4_cashflow_rules (cfo ni : ℚ) :
    cashflowFlags cfo ni ≠ [] ∧
    (cashflowFlags cfo ni = ["Cash flows broadly support reported profits"] ∨
      (cashflowFlags cfo ni).Sublist
        ["Operating cash flow is lower than net profit",
         "Weak cash conversion (CFO / Net Profit < 0.8)",
         "Negative operating cash flow despite positive profit"]) ∧
    ("Operating cash flow is lower than net profit" ∈ cashflowFlags cfo ni ↔ cfo < ni) ∧
    ("Weak cash conversion (CFO / Net Profit < 0.8)" ∈ cashflowFlags cfo ni ↔
      ni ≠ 0 ∧ cfo / ni < 4/5) ∧
    ("Negative operating cash flow despite positive profit" ∈ cashflowFlags cfo ni ↔
      0 < ni ∧ cfo < 0) ∧
    ("Cash flows broadly support reported profits" ∈ cashflowFlags cfo ni ↔
      ¬(cfo < ni) ∧ ¬(ni ≠ 0 ∧ cfo / ni < 4/5) ∧ ¬(0 < ni ∧ cfo < 0)) ∧
    cashflowFlags (-10) 50 =
      ["Operating cash flow is lower than net profit",
       "Weak cash conversion (CFO / Net Profit < 0.8)",
       "Negative operating cash flow despite positive profit"] := by
  have hconc : cashflowFlags (-10) 50 =
      ["Operating cash flow is lower than net profit",
       "Weak cash conversion (CFO / Net Profit < 0.8)",
       "Negative operating cash flow despite positive profit"] := by
    have c1 : (-10 : ℚ) < 50 := by norm_num
    have c2 : ((-10 : ℚ) / 50 < 4/5) := by norm_num
    have c2' : (50 : ℚ) ≠ 0 := by norm_num
    have c3 : (0 : ℚ) < 50 := by norm_num
    have c4 : (-10 : ℚ) < 0 := by norm_num
    simp [cashflowFlags, c1, c2, c2', c3, c4]
  by_cases h1 : cfo < ni <;> by_cases h2 : ni ≠ 0 ∧ cfo / ni < 4/5 <;>
    by_cases h3 : 0 < ni ∧ cfo < 0
  · have hval : cashflowFlags cfo ni =
        ["Operating cash flow is lower than net profit",
         "Weak cash conversion (CFO / Net Profit < 0.8)",
         "Negative operating cash flow despite positive profit"] := by
      simp [cashflowFlags, h1, h2, h3]
    rw [hval]
    exact ⟨by decide, Or.inr (by decide), iff_of_true (by decide) h1,
      iff_of_true (by decide) h2, iff_of_true (by decide) h3,
      iff_of_false (by decide) (by tauto), hconc⟩
  · have hval : cashflowFlags cfo ni =
        ["Operating cash flow is lower than net profit",
         "Weak cash conversion (CFO / Net Profit < 0.8)"] := by
      simp [cashflowFlags, h1, h2, h3]
    rw [hval]
    exact ⟨by decide, Or.inr (by decide), iff_of_true (by decide) h1,
      iff_of_true (by decide) h2, iff_of_false (by decide) h3,
      iff_of_false (by decide) (by tauto), hconc⟩
  · have hval : cashflowFlags cfo ni =
        ["Operating cash flow is lower than net profit",
         "Negative operating cash flow despite positive profit"] := by
      simp [cashflowFlags, h1, h2, h3]
    rw [hval]
    exact ⟨by decide, Or.inr (by decide), iff_of_true (by decide) h1,
      iff_of_false (by decide) h2, iff_of_true (by decide) h3,
      iff_of_false (by decide) (by tauto), hconc⟩
  · have hval : cashflowFlags cfo ni =
        ["Operating cash flow is lower than net profit"] := by
      simp [cashflowFlags, h1, h2, h3]
    rw [hval]
    exact ⟨by decide, Or.inr (by decide), iff_of_true (by decide) h1,
      iff_of_false (by decide) h2, iff_of_false (by decide) h3,
      iff_of_false (by decide) (by tauto), hconc⟩
  · have hval : cashflowFlags cfo ni =
        ["Weak cash conversion (CFO / Net Profit < 0.8)",
         "Negative operating cash flow despite positive profit"] := by
      simp [cashflowFlags, h1, h2, h3]
    rw [hval]
    exact ⟨by decide, Or.inr (by decide), iff_of_false (by decide) h1,
      iff_of_true (by decide) h2, iff_of_true (by decide) h3,
      iff_of_false (by decide) (by tauto), hconc⟩
  · have hval : cashflowFlags cfo ni =
        ["Weak cash conversion (CFO / Net Profit < 0.8)"] := by
      simp [cashflowFlags, h1, h2, h3]
    rw [hval]
    exact ⟨by decide, Or.inr (by decide), iff_of_false (by decide) h1,
      iff_of_true (by decide) h2, iff_of_false (by decide) h3,
      iff_of_false (by decide) (by tauto), hconc⟩
  · have hval : cashflowFlags cfo ni =
        ["Negative operating cash flow despite positive profit"] := by
      simp [cashflowFlags, h1, h2, h3]
    rw [hval]
    exact ⟨by decide, Or.inr (by decide), iff_of_false (by decide) h1,
      iff_of_false (by decide) h2, iff_of_true (by decide) h3,
      iff_of_false (by decide) (by tauto), hconc⟩
  · have hval : cashflowFlags cfo ni =
        ["Cash flows broadly support reported profits"] := by
      simp [cashflowFlags, h1, h2, h3]
    rw [hval]
    exact ⟨by decide, Or.inl rfl, iff_of_false (by decide) h1,
      iff_of_false (by decide) h2, iff_of_false (by decide) h3,
      iff_of_true (by decide) ⟨h1, h2, h3⟩, hconc⟩

/-- C5 corrected: CFO is looked up under the single hardcoded row name
`"Total Cash From Operating Activities"` and net income under
`"Net Income"` — no alias list; if either statement is absent or either
lookup fails, the result is exactly the single generic flag
`"Cash-flow data unavailable"` and no red-flag rule is evaluated;
otherwise the red-flag rules run on the resolved pair. -/
theorem C5_lookup_fallback (cf inc : Stmt) :
    (rowLookup cf "Total Cash From Operating Activities" = none ∨
        rowLookup inc "Net Income" = none →
      get_cashflow_flags (some cf) (some inc) = ["Cash-flow data unavailable"]) ∧
    (∀ cfo ni, rowLookup cf "Total Cash From Operating Activities" = some cfo →
      rowLookup inc "Net Income" = some ni →
      get_cashflow_flags (some cf) (some inc) = cashflowFlags cfo ni) ∧
    get_cashflow_flags none (some inc) = ["Cash-flow data unavailable"] ∧
    get_cashflow_flags (some cf) none = ["Cash-flow data unavailable"] := by
  refine ⟨?_, ?_, rfl, rfl⟩
  · intro h
    cases hcf : rowLookup cf "Total Cash From Operating Activities" with
    | none => simp [get_cashflow_flags, hcf]
    | some cfo =>
      cases hni : rowLookup inc "Net Income" with
      | none => simp [get_cashflow_flags, hcf, hni]
      | some ni => rcases h with h | h <;> simp_all
  · intro cfo ni hcf hni
    simp [get_cashflow_flags, hcf, hni]

/-- C5 witness: with both rows present under the hardcoded names, the
red-flag rules are evaluated on the looked-up values. -/
theorem C5_witness :
    get_cashflow_flags (some [("Total Cash From Operating Activities", (80 : ℚ))])
        (some [("Net Income", (100 : ℚ))]) = cashflowFlags 80 100 :=
  (C5_lookup_fallback _ _).2.1 80 100 (by decide) (by decide)

/-- C9: the keyword sentiment classifier (modelled from spec §4.3, the
component is absent from `src/app.py`): a positive-keyword match forces
Positive regardless of negative matches, otherwise a negative-keyword
match gives Caution, otherwise Neutral; the three specified headlines
classify as Positive (despite "fraud"/"probe" present), Caution and
Neutral. -/
theorem C9_sentiment_tiebreak (h : String) :
    ((∃ kw ∈ positiveKWs, isSubstr kw.data (lowerChars h) = true) →
      classify h = .positive) ∧
    ((∀ kw ∈ positiveKWs, isSubstr kw.data (lowerChars h) = false) →
      (∃ kw ∈ negativeKWs, isSubstr kw.data (lowerChars h) = true) →
      classify h = .caution) ∧
    ((∀ kw ∈ positiveKWs, isSubstr kw.data (lowerChars h) = false) →
      (∀ kw ∈ negativeKWs, isSubstr kw.data (lowerChars h) = false) →
      classify h = .neutral) ∧
    classify "Record profit despite fraud probe" = .positive ∧
    "fraud" ∈ negativeKWs ∧
    isSubstr "fraud".data (lowerChars "Record profit despite fraud probe") = true ∧
    classify "Regulator penalty imposed" = .caution ∧
    classify "Quarterly results released" = .neutral := by
  refine ⟨?_, ?_, ?_, by decide, by decide, by decide, by decide, by decide⟩
  · intro hex
    obtain ⟨kw, hmem, hsub⟩ := hex
    have hp : positiveKWs.any (fun kw => isSubstr kw.data (lowerChars h)) = true :=
      List.any_eq_true.mpr ⟨kw, hmem, hsub⟩
    simp [classify, hp]
  · intro hall hex
    obtain ⟨kw, hmem, hsub⟩ := hex
    have hp : positiveKWs.any (fun kw => isSubstr kw.data (lowerChars h)) = false := by
      simp only [List.any_eq_false]
      intro x hx
      simp [hall x hx]
    have hn : negativeKWs.any (fun kw => isSubstr kw.data (lowerChars h)) = true :=
      List.any_eq_true.mpr ⟨kw, hmem, hsub⟩
    simp [classify, hp, hn]
  · intro hall1 hall2
    have hp : positiveKWs.any (fun kw => isSubstr kw.data (lowerChars h)) = false := by
      simp only [List.any_eq_false]
      intro x hx
      simp [hall1 x hx]
    have hn : negativeKWs.any (fun kw => isSubstr kw.data (lowerChars h)) = false := by
      simp only [List.any_eq_false]
      intro x hx
      simp [hall2 x hx]
    simp [classify, hp, hn]

/-- C9 witness: a headline matching a positive keyword classifies
Positive. -/
theorem C9_witness : classify "profit warning" = .positive :=
  (C9_sentiment_tiebreak "profit warning").1 ⟨"profit", by decide, by decide⟩

/-- C3 corrected: `oneYearReturnPct` is null for a series of at most 252
observations; for a longer series it equals
`(close[last] / close[last-251] − 1) × 100`, reading the observation 251
positions before the last (Python `iloc[-252]`, index `length − 252`):
for any series `pre ++ a :: mid ++ [z]` with `pre` non-empty and `mid` of
length 250, the base observation is `a`, which is followed by exactly 251
observations. -/
theorem C3_one_year_return (cs pre mid : List ℚ) (a z : ℚ)
    (hpre : pre ≠ []) (hmid : mid.length = 250) :
    (cs.length ≤ 252 → oneYearReturn cs = none) ∧
    oneYearReturn (pre ++ a :: (mid ++ [z])) = some ((z / a - 1) * 100) := by
  constructor
  · intro hle
    rw [oneYearReturn, if_neg (by omega)]
  · have hplen : 1 ≤ pre.length := List.length_pos.mpr hpre
    have hL : (pre ++ a :: (mid ++ [z])).length = pre.length + 252 := by
      simp [hmid]
    rw [oneYearReturn, if_pos (by omega)]
    have hlast : (pre ++ a :: (mid ++ [z])).getD ((pre ++ a :: (mid ++ [z])).length - 1) 0 = z := by
      rw [hL]
      rw [List.getD_append_right _ _ _ _ (by omega)]
      have h1 : pre.length + 252 - 1 - pre.length = 251 := by omega
      rw [h1]
      have h2 : (251 : ℕ) = 250 + 1 := by omega
      rw [h2, List.getD_cons_succ]
      rw [List.getD_append_right _ _ _ _ (by omega), hmid]
      simp
    have hbase : (pre ++ a :: (mid ++ [z])).getD ((pre ++ a :: (mid ++ [z])).length - 252) 0 = a := by
      rw [hL]
      rw [List.getD_append_right _ _ _ _ (by omega)]
      have h1 : pre.length + 252 - 252 - pre.length = 0 := by omega
      rw [h1, List.getD_cons_zero]
    rw [hlast, hbase]

/-- C3 witness: the empty series yields null, and a concrete
253-observation series yields the exact formula value read 251 positions
before the last observation. -/
theorem C3_witness :
    oneYearReturn [] = none ∧
    oneYearReturn ([1] ++ (2 : ℚ) :: (List.replicate 250 5 ++ [10])) =
      some ((10 / 2 - 1) * 100) :=
  ⟨(C3_one_year_return [] [1] (List.replicate 250 5) 2 10 (by simp)
      (by rw [List.length_replicate])).1 (by simp),
   (C3_one_year_return [] [1] (List.replicate 250 5) 2 10 (by simp)
      (by rw [List.length_replicate])).2⟩

/-- C6 corrected: with a Low risk profile, `build_portfolio` keeps the
eligible rows whose volatility is strictly below the cross-sectional
median volatility of the eligible table, in their original table order
(no volatility sort), truncated to the first five such rows. -/
theorem C6_low_risk_selection (tbl : List Row) :
    (build_portfolio tbl .low).Sublist (eligible tbl) ∧
    (∀ r ∈ build_portfolio tbl .low, ∃ v, r.vol = some v ∧
      v < median ((eligible tbl).filterMap Row.vol)) ∧
    (build_portfolio tbl .low).length ≤ 5 ∧
    (∀ r ∈ eligible tbl, (∃ v, r.vol = some v ∧
        v < median ((eligible tbl).filterMap Row.vol)) →
      r ∈ build_portfolio tbl .low ∨ (build_portfolio tbl .low).length = 5) := by
  have hbp : build_portfolio tbl .low =
      ((eligible tbl).filter
        (volBelow (median ((eligible tbl).filterMap Row.vol)))).take 5 := rfl
  refine ⟨?_, ?_, ?_, ?_⟩
  · rw [hbp]
    exact (List.take_sublist _ _).trans (List.filter_sublist _)
  · intro r hr
    rw [hbp] at hr
    have hf := (List.take_sublist _ _).subset hr
    have hvb := List.of_mem_filter hf
    cases hv : r.vol with
    | none => rw [volBelow, hv] at hvb; exact absurd hvb (by simp)
    | some v =>
      rw [volBelow, hv] at hvb
      exact ⟨v, rfl, of_decide_eq_true hvb⟩
  · rw [hbp, List.length_take]
    exact min_le_left _ _
  · intro r hrd hv
    rw [hbp]
    have hfil : r ∈ (eligible tbl).filter
        (volBelow (median ((eligible tbl).filterMap Row.vol))) := by
      refine List.mem_filter.mpr ⟨hrd, ?_⟩
      obtain ⟨v, hv1, hv2⟩ := hv
      rw [volBelow, hv1]
      exact decide_eq_true hv2
    by_cases hlen : ((eligible tbl).filter
        (volBelow (median ((eligible tbl).filterMap Row.vol)))).length ≤ 5
    · left
      rwa [List.take_of_length_le hlen]
    · right
      rw [List.length_take]
      omega

/-- Rows for the C6 counterexample: six rows with volatilities
6, 5, 4, 3, 2, 1 followed by seven rows with volatility 20; the median of
the thirteen volatilities is 20, so the below-median rows are the first
six in table order and `head(5)` keeps volatilities 6, 5, 4, 3, 2. -/
def exC6 : List Row :=
  [mkR "A" (some 1) (some 1) (some 6) (some 1),
   mkR "B" (some 1) (some 1) (some 5) (some 1),
   mkR "C" (some 1) (some 1) (some 4) (some 1),
   mkR "D" (some 1) (some 1) (some 3) (some 1),
   mkR "E" (some 1) (some 1) (some 2) (some 1),
   mkR "F" (some 1) (some 1) (some 1) (some 1),
   mkR "G" (some 1) (some 1) (some 20) (some 1),
   mkR "H" (some 1) (some 1) (some 20) (some 1),
   mkR "I" (some 1) (some 1) (some 20) (some 1),
   mkR "J" (some 1) (some 1) (some 20) (some 1),
   mkR "K" (some 1) (some 1) (some 20) (some 1),
   mkR "L" (some 1) (some 1) (some 20) (some 1),
   mkR "M" (some 1) (some 1) (some 20) (some 1)]

/-- C6 counterexample: on `exC6` the Low-risk selection keeps volatilities
6, 5, 4, 3, 2 in original (descending-volatility) order — it does not keep
the five lowest-volatility rows (the row with volatility 1 is dropped) and
is not in ascending volatility order. -/
theorem C6_counterexample :
    (build_portfolio exC6 .low).map Row.vol =
      [some 6, some 5, some 4, some 3, some 2] ∧
    some (1 : ℚ) ∉ (build_portfolio exC6 .low).map Row.vol ∧
    [some (6 : ℚ), some 5, some 4, some 3, some 2] ≠
      [some 1, some 2, some 3, some 4, some 5] := by
  refine ⟨by decide, by decide, by decide⟩

/-- Table for the C6/C7 witnesses: three fully populated rows with
volatilities 1, 2 and 30; the median volatility is 2, so only the first
row is below the median. -/
def exC6w : List Row :=
  [mkR "A" (some 1) (some 1) (some 1) (some 1),
   mkR "B" (some 1) (some 1) (some 2) (some 1),
   mkR "C" (some 1) (some 1) (some 30) (some 1)]

/-- C6 witness: the below-median row of `exC6w` is retained (the retained
set has fewer than five rows, so the theorem's disjunction resolves to
membership or a full basket). -/
theorem C6_witness :
    mkR "A" (some 1) (some 1) (some 1) (some 1) ∈ build_portfolio exC6w .low ∨
      (build_portfolio exC6w .low).length = 5 :=
  (C6_low_risk_selection exC6w).2.2.2 _ (by decide) ⟨1, rfl, by decide⟩

/-- C7 corrected: for every risk tier alike, the eligibility filter keeps
exactly the rows with non-null price, ROE, volatility and P/E — the
columns `oneYearReturnPct` and `threeYearCagrPct` are never checked (so a
null there never drops a row, and a null volatility or P/E drops a row
even for tiers whose ranking does not use it). -/
theorem C7_eligibility_filter (tbl : List Row) (risk : Risk) :
    (∀ r ∈ build_portfolio tbl risk, r ∈ tbl ∧ r.price.isSome = true ∧
      r.roe.isSome = true ∧ r.vol.isSome = true ∧ r.pe.isSome = true) ∧
    (∀ r ∈ tbl, r.price.isSome = true → r.roe.isSome = true →
      r.vol.isSome = true → r.pe.isSome = true → r ∈ eligible tbl) := by
  constructor
  · intro r hr
    exact mem_eligible_fields (mem_of_mem_build_portfolio hr)
  · intro r hr h1 h2 h3 h4
    refine List.mem_filter.mpr ⟨hr, ?_⟩
    simp [h1, h2, h3, h4]

/-- A row that is complete except for a null 1-year return: the claim says
Moderate ranking needs `oneYearReturnPct`, so this row should be dropped
under Moderate. -/
def rC7a : Row :=
  { company := "A", sector := "S", price := some 100, pe := some 20,
    roe := some 10, r1y := none, cagr3 := none, vol := some 5 }

/-- A row with price, ROE and 1-year return present but P/E null: the
claim says Moderate ranking does not need `pe`, so this row should be
kept under Moderate. -/
def rC7b : Row :=
  { company := "B", sector := "S", price := some 100, pe := none,
    roe := some 10, r1y := some 12, cagr3 := some 9, vol := some 5 }

/-- C7 counterexample: under Moderate, a row with a null
`oneYearReturnPct` (a field the claim says the Moderate ranking needs) is
retained, while a row with a null P/E (a field the claim says Moderate
does not need) is dropped. -/
theorem C7_counterexample :
    rC7a.r1y = none ∧ build_portfolio [rC7a] .moderate = [rC7a] ∧
    rC7b.price.isSome = true ∧ rC7b.roe.isSome = true ∧
    rC7b.r1y.isSome = true ∧ build_portfolio [rC7b] .moderate = [] := by
  refine ⟨rfl, by decide, rfl, rfl, rfl, by decide⟩

/-- C7 witness: a fully populated row passes the eligibility filter. -/
theorem C7_witness : mkR "A" (some 1) (some 1) (some 1) (some 1) ∈ eligible exC6w :=
  (C7_eligibility_filter exC6w .moderate).2 _ (by decide) rfl rfl rfl rfl

/-- Default row used only as the out-of-range fallback of `List.getD`. -/
def rowDefault : Row :=
  { company := "", sector := "", price := none, pe := none, roe := none,
    r1y := none, cagr3 := none, vol := none }

/-- Default instrument used only as the out-of-range fallback of
`List.getD`. -/
def eqDefault : Equity := { symbol := "", company := "", sector := "" }

lemma getD_buildTable (sq cb : ℚ → ℚ) (fetch : Equity → Option RawData)
    (univ : List Equity) (i : ℕ) (hi : i < univ.length) :
    (buildTable sq cb fetch univ).getD i rowDefault =
      mkRow (univ.getD i eqDefault)
        (get_metrics sq cb (fetch (univ.getD i eqDefault))) := by
  rw [buildTable, List.getD_eq_getElem?_getD, List.getElem?_map,
    List.getElem?_eq_getElem hi]
  rw [List.getD_eq_getElem?_getD, List.getElem?_eq_getElem hi]
  simp

/-- C8: for every universe and per-symbol data source, the master-table
loop yields exactly one row per instrument in universe order (matching
Company and Sector), a failed fetch for an instrument nulls all six
metric fields of that row only, and changing the data source at a single
instrument leaves every row of a different instrument unchanged. -/
theorem C8_aggregation (sq cb : ℚ → ℚ) (fetch g : Equity → Option RawData)
    (univ : List Equity) :
    (buildTable sq cb fetch univ).length = univ.length ∧
    (∀ i, i < univ.length →
      ((buildTable sq cb fetch univ).getD i rowDefault).company =
        (univ.getD i eqDefault).company ∧
      ((buildTable sq cb fetch univ).getD i rowDefault).sector =
        (univ.getD i eqDefault).sector) ∧
    (∀ i, i < univ.length → fetch (univ.getD i eqDefault) = none →
      ((buildTable sq cb fetch univ).getD i rowDefault).price = none ∧
      ((buildTable sq cb fetch univ).getD i rowDefault).pe = none ∧
      ((buildTable sq cb fetch univ).getD i rowDefault).roe = none ∧
      ((buildTable sq cb fetch univ).getD i rowDefault).r1y = none ∧
      ((buildTable sq cb fetch univ).getD i rowDefault).cagr3 = none ∧
      ((buildTable sq cb fetch univ).getD i rowDefault).vol = none) ∧
    (∀ e, (∀ e2, e2 ≠ e → fetch e2 = g e2) → ∀ i, i < univ.length →
      univ.getD i eqDefault ≠ e →
      (buildTable sq cb fetch univ).getD i rowDefault =
        (buildTable sq cb g univ).getD i rowDefault) := by
  refine ⟨by simp [buildTable], ?_, ?_, ?_⟩
  · intro i hi
    rw [getD_buildTable sq cb fetch univ i hi]
    exact ⟨rfl, rfl⟩
  · intro i hi hf
    rw [getD_buildTable sq cb fetch univ i hi, hf]
    exact ⟨rfl, rfl, rfl, rfl, rfl, rfl⟩
  · intro e hagree i hi hne
    rw [getD_buildTable sq cb fetch univ i hi, getD_buildTable sq cb g univ i hi,
      hagree _ hne]

/-- Two-instrument universe for the C8 witness. -/
def eqA : Equity := { symbol := "AAA.NS", company := "AAA", sector := "S" }

/-- Second instrument for the C8 witness. -/
def eqB : Equity := { symbol := "BBB.NS", company := "BBB", sector := "S" }

/-- Data source for the C8 witness: succeeds for `eqA`, fails for every
other instrument. -/
def fetchW : Equity → Option RawData :=
  fun e => if e.symbol == "AAA.NS" then some ⟨some 10, some 5, some 1, [1, 2, 3, 4]⟩ else none

/-- C8 witness: on a concrete two-instrument universe where the second
fetch fails, the second row's six metric fields are all null while the
first row still carries the first instrument's company name. -/
theorem C8_witness :
    ((buildTable id id fetchW [eqA, eqB]).getD 1 rowDefault).price = none ∧
    ((buildTable id id fetchW [eqA, eqB]).getD 1 rowDefault).vol = none ∧
    ((buildTable id id fetchW [eqA, eqB]).getD 0 rowDefault).company = "AAA" := by
  have h := C8_aggregation id id fetchW fetchW [eqA, eqB]
  have h2 := h.2.2.1 1 (by decide) (by decide)
  exact ⟨h2.1, h2.2.2.2.2.2, (h.2.1 0 (by decide)).1⟩

/-- C1 corrected: for a screener table whose non-null prices are all
positive, a positive capital, and a successful run of the allocation
code, every entry has a positive price, shares equal to
`floor((capital / N) / price)` with `N` the number of entries, a
non-negative share count, and `investedAmount = shares × price`; the
total invested is the sum of the entries' invested amounts, it never
exceeds the capital, and `cashLeft = capital − totalInvested ≥ 0`.
(Without the positivity premise the share count can be negative, see
`C1_counterexample`.) -/
theorem C1_allocation_invariants (df : List Row) (risk : Risk) (capital : ℚ)
    (res : PortfolioResult)
    (hcap : 0 < capital)
    (hpos : ∀ r ∈ df, ∀ p, r.price = some p → 0 < p)
    (hok : generate df risk capital = .ok res) :
    (∀ e ∈ res.entries,
      0 < e.price ∧
      e.shares = Int.floor (capital / (res.entries.length : ℚ) / e.price) ∧
      0 ≤ e.shares ∧
      e.invested = (e.shares : ℚ) * e.price) ∧
    res.totalInvested = (res.entries.map Entry.invested).sum ∧
    res.totalInvested ≤ capital ∧
    res.cashLeft = capital - res.totalInvested ∧
    0 ≤ res.cashLeft := by
  have hrow : ∀ r ∈ build_portfolio df risk, 0 < r.price.getD 0 := by
    intro r hr
    have helig := mem_eligible_fields (mem_of_mem_build_portfolio hr)
    obtain ⟨p, hp⟩ := Option.isSome_iff_exists.1 helig.2.1
    have hppos := hpos r helig.1 p hp
    rw [hp, Option.getD_some]
    exact hppos
  simp only [generate] at hok
  by_cases h0 : (build_portfolio df risk).length = 0
  · rw [if_pos h0] at hok
    exact absurd hok (by simp)
  rw [if_neg h0] at hok
  by_cases hz : (build_portfolio df risk).any (fun r => r.price.getD 0 == 0) = true
  · rw [if_pos hz] at hok
    exact absurd hok (by simp)
  rw [if_neg hz] at hok
  injection hok with hok
  subst hok
  have hN0 : 0 < (build_portfolio df risk).length := Nat.pos_of_ne_zero h0
  have hNq : (0 : ℚ) < ((build_portfolio df risk).length : ℚ) := by exact_mod_cast hN0
  have halloc : 0 < capital / ((build_portfolio df risk).length : ℚ) := div_pos hcap hNq
  have hb : ∀ x ∈ ((build_portfolio df risk).map
      (mkEntry (capital / ((build_portfolio df risk).length : ℚ)))).map Entry.invested,
      x ≤ capital / ((build_portfolio df risk).length : ℚ) := by
    intro x hx
    rw [List.map_map, List.mem_map] at hx
    obtain ⟨r, hr, rfl⟩ := hx
    have hp := hrow r hr
    show (mkEntry (capital / ((build_portfolio df risk).length : ℚ)) r).invested ≤ _
    dsimp only [mkEntry]
    calc (Int.floor (capital / ((build_portfolio df risk).length : ℚ) / r.price.getD 0) : ℚ) *
          r.price.getD 0
        ≤ (capital / ((build_portfolio df risk).length : ℚ) / r.price.getD 0) * r.price.getD 0 :=
          mul_le_mul_of_nonneg_right (Int.floor_le _) hp.le
      _ = capital / ((build_portfolio df risk).length : ℚ) :=
          div_mul_cancel₀ _ (ne_of_gt hp)
  have htot : (((build_portfolio df risk).map
      (mkEntry (capital / ((build_portfolio df risk).length : ℚ)))).map Entry.invested).sum ≤
      capital := by
    have hsum := List.sum_le_card_nsmul _ _ hb
    rw [List.length_map, List.length_map, nsmul_eq_mul] at hsum
    calc (((build_portfolio df risk).map
          (mkEntry (capital / ((build_portfolio df risk).length : ℚ)))).map Entry.invested).sum
        ≤ ((build_portfolio df risk).length : ℚ) *
            (capital / ((build_portfolio df risk).length : ℚ)) := hsum
      _ = capital := by
          rw [mul_comm]
          exact div_mul_cancel₀ _ (ne_of_gt hNq)
  refine ⟨?_, rfl, htot, rfl, sub_nonneg.mpr htot⟩
  intro e he
  dsimp only at he
  rw [List.mem_map] at he
  obtain ⟨r, hr, rfl⟩ := he
  have hp := hrow r hr
  refine ⟨hp, ?_, ?_, rfl⟩
  · dsimp only [mkEntry]
    rw [List.length_map]
  · dsimp only [mkEntry]
    refine Int.le_floor.mpr ?_
    push_cast
    exact (div_pos halloc hp).le

/-- A single eligible row with a negative price: `app.py` never guards
`price > 0`. -/
def rC1neg : Row := mkR "A" (some (-200)) (some 10) (some 1) (some 10)

/-- One-row table for the C1 counterexample. -/
def exC1neg : List Row := [rC1neg]

/-- The result the allocation code produces on `exC1neg` with capital
20000: `floor(20000 / -200) = -100` shares. -/
def resC1neg : PortfolioResult :=
  { entries := [{ company := "A", price := -200, shares := -100, invested := 20000 }],
    totalInvested := 20000, cashLeft := 0 }

/-- C1 counterexample: on a table whose (non-null) price is −200 and
capital 20000, the allocation succeeds with −100 shares — the claimed
invariant "shares is a non-negative integer" fails on the code, which
floors `allocation / price` without any `price > 0` guard. -/
theorem C1_counterexample :
    generate exC1neg .moderate 20000 = .ok resC1neg ∧
    resC1neg.entries.map Entry.shares = [-100] ∧
    ¬ (0 : ℤ) ≤ -100 := by
  refine ⟨?_, rfl, by norm_num⟩
  have hbp : build_portfolio exC1neg .moderate = [rC1neg] := by decide
  have hent : mkEntry ((20000 : ℚ) / ((1 : ℕ) : ℚ)) rC1neg =
      { company := "A", price := -200, shares := -100, invested := 20000 } := by
    rw [mkEntry]
    rw [show rC1neg.price.getD 0 = (-200 : ℚ) from rfl]
    rw [show (20000 : ℚ) / ((1 : ℕ) : ℚ) = 20000 by push_cast; norm_num]
    rw [show (20000 : ℚ) / (-200 : ℚ) = ((-100 : ℤ) : ℚ) by norm_num]
    rw [Int.floor_intCast]
    norm_num
    rfl
  simp only [generate, hbp]
  rw [if_neg (by decide : ¬ ([rC1neg] : List Row).length = 0)]
  rw [if_neg (by decide : ¬ ([rC1neg] : List Row).any (fun r => r.price.getD 0 == 0) = true)]
  show Except.ok
      { entries := [rC1neg].map (mkEntry ((20000 : ℚ) / ((1 : ℕ) : ℚ))),
        totalInvested :=
          (([rC1neg].map (mkEntry ((20000 : ℚ) / ((1 : ℕ) : ℚ)))).map Entry.invested).sum,
        cashLeft := 20000 -
          (([rC1neg].map (mkEntry ((20000 : ℚ) / ((1 : ℕ) : ℚ)))).map Entry.invested).sum } =
    Except.ok resC1neg
  simp only [List.map_cons, List.map_nil, hent]
  norm_num [resC1neg]

/-- Five eligible rows, each priced 200, with distinct ROEs (already in
descending ROE order, so the Moderate sort keeps the order). -/
def exC1 : List Row :=
  [mkR "A" (some 200) (some 50) (some 1) (some 10),
   mkR "B" (some 200) (some 40) (some 2) (some 10),
   mkR "C" (some 200) (some 30) (some 3) (some 10),
   mkR "D" (some 200) (some 20) (some 4) (some 10),
   mkR "E" (some 200) (some 10) (some 5) (some 10)]

/-- The allocation result on `exC1` with capital 100000: allocation per
entry 20000, 100 shares each, 100000 invested, nothing left. -/
def resC1 : PortfolioResult :=
  { entries :=
      [{ company := "A", price := 200, shares := 100, invested := 20000 },
       { company := "B", price := 200, shares := 100, invested := 20000 },
       { company := "C", price := 200, shares := 100, invested := 20000 },
       { company := "D", price := 200, shares := 100, invested := 20000 },
       { company := "E", price := 200, shares := 100, invested := 20000 }],
    totalInvested := 100000, cashLeft := 0 }

/-- C1 witness: the spec's concrete instance — capital 100000, five
eligible rows each priced 200: every entry gets 100 shares, the total
invested is 100000 and the cash left is 0; the invariants of
`C1_allocation_invariants` apply. -/
theorem C1_witness :
    generate exC1 .moderate 100000 = .ok resC1 ∧
    (∀ e ∈ resC1.entries, e.shares = 100) ∧
    resC1.totalInvested = 100000 ∧ resC1.cashLeft = 0 ∧
    resC1.totalInvested ≤ 100000 ∧ 0 ≤ resC1.cashLeft := by
  have hbp : build_portfolio exC1 .moderate = exC1 := by decide
  have hent : ∀ c roe vol, mkEntry ((100000 : ℚ) / ((5 : ℕ) : ℚ)) (mkR c (some 200) roe vol (some 10)) =
      { company := c, price := 200, shares := 100, invested := 20000 } := by
    intro c roe vol
    rw [mkEntry]
    rw [show (mkR c (some 200) roe vol (some 10)).price.getD 0 = (200 : ℚ) from rfl]
    rw [show (100000 : ℚ) / ((5 : ℕ) : ℚ) = 20000 by push_cast; norm_num]
    rw [show (20000 : ℚ) / (200 : ℚ) = ((100 : ℤ) : ℚ) by norm_num]
    rw [Int.floor_intCast]
    norm_num
    rfl
  have hgen : generate exC1 .moderate 100000 = .ok resC1 := by
    simp only [generate, hbp]
    rw [if_neg (by decide : ¬ exC1.length = 0)]
    rw [if_neg (by decide : ¬ exC1.any (fun r => r.price.getD 0 == 0) = true)]
    show Except.ok
        { entries := exC1.map (mkEntry ((100000 : ℚ) / ((5 : ℕ) : ℚ))),
          totalInvested :=
            ((exC1.map (mkEntry ((100000 : ℚ) / ((5 : ℕ) : ℚ)))).map Entry.invested).sum,
          cashLeft := 100000 -
            ((exC1.map (mkEntry ((100000 : ℚ) / ((5 : ℕ) : ℚ)))).map Entry.invested).sum } =
      Except.ok resC1
    simp only [exC1, List.map_cons, List.map_nil, hent]
    norm_num [resC1]
  have h := C1_allocation_invariants exC1 .moderate 100000 resC1 (by norm_num)
    (by
      intro r hr p hp
      fin_cases hr <;>
      · simp [mkR] at hp
        subst hp
        norm_num)
    hgen
  exact ⟨hgen, by decide, rfl, rfl, h.2.2.1, h.2.2.2.2⟩

/-- C10: adding to the watchlist (app.py lines 151-153) is idempotent —
adding a present company changes nothing, adding an absent one appends
it at the end, no duplicates appear, and a second add of the same name
is a no-op. -/
theorem C10_watchlist_idempotent (w : List String) (s : String) :
    (s ∈ w → addWatchlist w s = w) ∧
    (s ∉ w → addWatchlist w s = w ++ [s]) ∧
    (w.Nodup → (addWatchlist w s).Nodup) ∧
    addWatchlist (addWatchlist w s) s = addWatchlist w s := by
  by_cases h : s ∈ w
  · refine ⟨fun _ => by simp [addWatchlist, h], fun hn => absurd h hn, ?_, ?_⟩
    · intro hd
      simpa [addWatchlist, h] using hd
    · simp [addWatchlist, h]
  · refine ⟨fun hs => absurd hs h, fun _ => by simp [addWatchlist, h], ?_, ?_⟩
    · intro hd
      simp [addWatchlist, h, List.nodup_append, hd]
    · simp [addWatchlist, h]

/-- C10 witness: adding a present name is a no-op and adding an absent
name appends it. -/
theorem C10_witness :
    addWatchlist ["TCS"] "TCS" = ["TCS"] ∧ addWatchlist ["TCS"] "Infosys" = ["TCS", "Infosys"] :=
  ⟨(C10_watchlist_idempotent ["TCS"] "TCS").1 (by decide),
   (C10_watchlist_idempotent ["TCS"] "Infosys").2.1 (by decide)⟩

end Nifty
